import Mathlib

/-!
Shallow embedding of `src/xparser_client.py` (class `XParserClient`), the
concurrency-bounded asynchronous HTTP client this repository's specification
documents.  Pure request construction and response classification become Lean
functions parameterised over an abstract transport; the asynchronous
semaphore-bounded execution becomes a step relation on an explicit state type.
-/

namespace XParserClient

/-- JSON-like values, the payloads of request/response bodies and of the
`options` mappings.  Objects carry their key/value pairs as an association
list, mirroring Python `dict` insertion order. -/
inductive Value where
  | vStr : String → Value
  | vBool : Bool → Value
  | vNum : Int → Value
  | vNull : Value
  | vObj : List (String × Value) → Value

/-- A Python `dict` with string keys, as an association list in insertion
order (a genuine `dict` never holds a duplicate key). -/
abbrev Dict : Type := List (String × Value)

/-- Key lookup in an association list, first match wins (for duplicate-free
lists this is exactly Python `d[k]` / `d.get(k)`). -/
def aLookup : Dict → String → Option Value
  | [], _ => none
  | (k, v) :: rest, key => if k = key then some v else aLookup rest key

/-- Python `d[k] = v`: replace the value in place when the key exists,
otherwise append the new pair at the end. -/
def setKey (d : Dict) (k : String) (v : Value) : Dict :=
  if (aLookup d k).isSome then
    d.map (fun kv => (kv.1, if kv.1 = k then v else kv.2))
  else
    d ++ [(k, v)]

/-- Python `d.update(u)`: assign each pair of `u` into `d`, left to right. -/
def dictUpdate (d u : Dict) : Dict :=
  u.foldl (fun acc kv => setKey acc kv.1 kv.2) d

/-- The `default_options` literal of `XParserClient._build_options`
(v1 option set). -/
def default_options_v1 : Dict :=
  [("response_format", Value.vStr "layout_json"),
   ("include_bbox", Value.vBool true),
   ("id_marker", Value.vBool true),
   ("group_markers", Value.vBool true),
   ("use_xparser_description", Value.vBool true)]

/-- The `default_options` literal of `XParserClient._build_options_v2`
(v2 / chunk option set). -/
def default_options_v2 : Dict :=
  [("use_ai_description", Value.vBool true),
   ("table_format", Value.vStr "markdown")]

/-- Embeds `XParserClient._build_options`: the v1 default option set, updated with
the caller's options when a non-empty mapping is supplied (Python's
`if options:` is falsy on `None` and on the empty dict alike). -/
def build_options (options : Option Dict) : Dict :=
  match options with
  | none => default_options_v1
  | some u => if u.isEmpty then default_options_v1 else dictUpdate default_options_v1 u

/-- Embeds `XParserClient._build_options_v2`: the v2 (chunk) default option set,
updated with the caller's options when a non-empty mapping is supplied. -/
def build_options_v2 (options : Option Dict) : Dict :=
  match options with
  | none => default_options_v2
  | some u => if u.isEmpty then default_options_v2 else dictUpdate default_options_v2 u

/-! ## Association-list lemmas for the shallow-merge claims -/

theorem aLookup_append (l₁ l₂ : Dict) (k : String) :
    aLookup (l₁ ++ l₂) k =
      match aLookup l₁ k with
      | some v => some v
      | none => aLookup l₂ k := by
  induction l₁ with
  | nil => rfl
  | cons hd tl ih =>
      obtain ⟨hk, hv⟩ := hd
      by_cases h : hk = k
      · simp [aLookup, h]
      · simpa [aLookup, h] using ih

theorem aLookup_eq_none_of_not_mem (d : Dict) (k : String)
    (h : k ∉ d.map Prod.fst) : aLookup d k = none := by
  induction d with
  | nil => rfl
  | cons hd tl ih =>
      obtain ⟨hk, hv⟩ := hd
      simp only [List.map_cons, List.mem_cons, not_or] at h
      have h1 : ¬ hk = k := fun hq => h.1 hq.symm
      simp [aLookup, h1, ih h.2]

theorem aLookup_map_replace (tl : Dict) (k : String) (v : Value)
    (h : (aLookup tl k).isSome) :
    aLookup (tl.map (fun kv => (kv.1, if kv.1 = k then v else kv.2))) k = some v := by
  induction tl with
  | nil => simp [aLookup] at h
  | cons hd tl ih =>
      obtain ⟨hk, hv⟩ := hd
      by_cases hkk : hk = k
      · subst hkk
        simp [aLookup]
      · simp only [aLookup, hkk, if_false] at h
        simp [aLookup, hkk, ih h]

theorem aLookup_map_replace_other (tl : Dict) (k k' : String) (v : Value)
    (hne : k' ≠ k) :
    aLookup (tl.map (fun kv => (kv.1, if kv.1 = k then v else kv.2))) k' =
      aLookup tl k' := by
  induction tl with
  | nil => rfl
  | cons hd tl ih =>
      obtain ⟨hk, hv⟩ := hd
      by_cases h3 : hk = k'
      · subst h3
        simp [aLookup, hne]
      · simp [aLookup, h3, ih]

theorem aLookup_setKey_self (d : Dict) (k : String) (v : Value) :
    aLookup (setKey d k v) k = some v := by
  unfold setKey
  by_cases h : (aLookup d k).isSome
  · rw [if_pos h]
    exact aLookup_map_replace d k v h
  · rw [if_neg h]
    rw [aLookup_append]
    rw [Option.not_isSome_iff_eq_none] at h
    simp [h, aLookup]

theorem aLookup_setKey_other (d : Dict) (k k' : String) (v : Value)
    (hne : k' ≠ k) : aLookup (setKey d k v) k' = aLookup d k' := by
  unfold setKey
  by_cases h : (aLookup d k).isSome
  · rw [if_pos h]
    exact aLookup_map_replace_other d k k' v hne
  · rw [if_neg h]
    rw [aLookup_append]
    cases hd : aLookup d k' with
    | some w => simp
    | none => simp [aLookup, Ne.symm hne]

theorem aLookup_dictUpdate_of_none (u : Dict) (d : Dict) (k : String)
    (h : aLookup u k = none) : aLookup (dictUpdate d u) k = aLookup d k := by
  induction u generalizing d with
  | nil => rfl
  | cons hd tl ih =>
      obtain ⟨uk, uv⟩ := hd
      by_cases hk : uk = k
      · simp [aLookup, hk] at h
      · simp only [aLookup, hk, if_false] at h
        rw [show dictUpdate d ((uk, uv) :: tl) = dictUpdate (setKey d uk uv) tl from rfl]
        rw [ih (setKey d uk uv) h]
        exact aLookup_setKey_other d uk k uv (fun hq => hk hq.symm)

theorem aLookup_dictUpdate_of_some (u : Dict) (d : Dict) (k : String) (v : Value)
    (hnd : (u.map Prod.fst).Nodup) (h : aLookup u k = some v) :
    aLookup (dictUpdate d u) k = some v := by
  induction u generalizing d with
  | nil => simp [aLookup] at h
  | cons hd tl ih =>
      obtain ⟨uk, uv⟩ := hd
      simp only [List.map_cons, List.nodup_cons] at hnd
      by_cases hk : uk = k
      · subst hk
        simp only [aLookup, if_pos rfl] at h
        injection h with hv
        subst hv
        rw [show dictUpdate d ((uk, uv) :: tl) = dictUpdate (setKey d uk uv) tl from rfl]
        rw [aLookup_dictUpdate_of_none tl (setKey d uk uv) uk
          (aLookup_eq_none_of_not_mem tl uk hnd.1)]
        exact aLookup_setKey_self d uk uv
      · simp only [aLookup, hk, if_false] at h
        rw [show dictUpdate d ((uk, uv) :: tl) = dictUpdate (setKey d uk uv) tl from rfl]
        exact ih (setKey d uk uv) hnd.2 h

/-! ## HTTP model and client operations -/

/-- An HTTP request as issued through `httpx`: method, full URL, JSON body. -/
structure HttpRequest where
  method : String
  url : String
  body : Value

/-- An HTTP response: status code, raw body text (`response.text`), and the
body parsed as JSON (`response.json()`), `none` when decoding would raise. -/
structure HttpResponse where
  status : Nat
  text : String
  jsonVal : Option Value

/-- Outcome of handing a request to the transport: either a response of some
status, or a transport-level failure (connection refused, timeout, DNS,
etc.), which `httpx` surfaces as a raised exception. -/
inductive HttpOutcome where
  | success : HttpResponse → HttpOutcome
  | transportFailure : String → HttpOutcome

/-- The network, abstracted: what `httpx.AsyncClient` returns for a request. -/
def Transport : Type := HttpRequest → HttpOutcome

/-- The classified errors `parse_document` / `parse_document_chunk` raise,
each carrying the data interpolated into the Python exception message:
`ValueError` on 400 (response text), `FileNotFoundError` on 404 (the
filename), `RuntimeError` on 500 (response text), the re-raised
`httpx.HTTPStatusError` on any other non-2xx (status and response text), and
re-raised transport/decoding exceptions. -/
inductive ParseError where
  | invalidRequest : String → ParseError
  | notFound : String → ParseError
  | serverError : String → ParseError
  | httpStatusError : Nat → String → ParseError
  | transportError : String → ParseError

/-- Embeds `XParserClient.__init__`: `base_url`, `timeout` (default 300) and the
semaphore capacity `max_concurrent` (default 10).  No attribute is ever
assigned outside `__init__`. -/
structure Client where
  base_url : String
  timeout : Nat := 300
  max_concurrent : Nat := 10

/-- The `request_data` dict built by `parse_document` /
`parse_document_chunk`: `saved_filename`, `bucket_name` (a string or Python
`None`), and the options produced by the endpoint's builder. -/
def request_body (saved_filename : String) (bucket_name : Option String)
    (opts : Dict) : Value :=
  Value.vObj
    [("saved_filename", Value.vStr saved_filename),
     ("bucket_name", match bucket_name with
                     | some s => Value.vStr s
                     | none => Value.vNull),
     ("options", Value.vObj opts)]

/-- Predicate for `response.raise_for_status()`: it succeeds exactly on 2xx statuses. -/
def is2xx (status : Nat) : Bool := 200 ≤ status && status ≤ 299

/-- Classification of one transport outcome by the shared
`try/except httpx.HTTPStatusError/except Exception` block of
`parse_document` and `parse_document_chunk`. -/
def classify_outcome (saved_filename : String) : HttpOutcome → Except ParseError Value
  | .transportFailure msg => .error (.transportError msg)
  | .success resp =>
      if is2xx resp.status then
        match resp.jsonVal with
        | some v => .ok v
        | none => .error (.transportError resp.text)
      else if resp.status = 400 then .error (.invalidRequest resp.text)
      else if resp.status = 404 then .error (.notFound saved_filename)
      else if resp.status = 500 then .error (.serverError resp.text)
      else .error (.httpStatusError resp.status resp.text)

/-- The one request `parse_document` issues: a POST of `request_data` to
`{base_url}/api/v2/parse`. -/
def parse_request (c : Client) (saved_filename : String)
    (bucket_name : Option String) (options : Option Dict) : HttpRequest :=
  { method := "POST", url := c.base_url ++ "/api/v2/parse",
    body := request_body saved_filename bucket_name (build_options options) }

/-- The one request `parse_document_chunk` issues: a POST of `request_data`
to `{base_url}/api/v2/chunk`. -/
def chunk_request (c : Client) (saved_filename : String)
    (bucket_name : Option String) (options : Option Dict) : HttpRequest :=
  { method := "POST", url := c.base_url ++ "/api/v2/chunk",
    body := request_body saved_filename bucket_name (build_options_v2 options) }

/-- Embeds `XParserClient.parse_document`, instrumented with the list of HTTP
requests the call hands to the transport (the method body contains a single
`client.post`): builds `request_data`, POSTs it to
`{base_url}/api/v2/parse`, and classifies the outcome. -/
def run_parse_document (c : Client) (t : Transport) (saved_filename : String)
    (bucket_name : Option String := some "aidoc")
    (options : Option Dict := none) :
    List HttpRequest × Except ParseError Value :=
  let req := parse_request c saved_filename bucket_name options
  ([req], classify_outcome saved_filename (t req))

/-- Projects `XParserClient.parse_document`'s return value (or raised error). -/
def parse_document (c : Client) (t : Transport) (saved_filename : String)
    (bucket_name : Option String := some "aidoc")
    (options : Option Dict := none) : Except ParseError Value :=
  (run_parse_document c t saved_filename bucket_name options).2

/-- Embeds `XParserClient.parse_document_chunk`, instrumented like
`run_parse_document`: POSTs to `{base_url}/api/v2/chunk` with the v2 option
builder; the error handling is identical. -/
def run_parse_document_chunk (c : Client) (t : Transport) (saved_filename : String)
    (bucket_name : Option String := some "aidoc")
    (options : Option Dict := none) :
    List HttpRequest × Except ParseError Value :=
  let req := chunk_request c saved_filename bucket_name options
  ([req], classify_outcome saved_filename (t req))

/-- Projects `XParserClient.parse_document_chunk`'s return value (or raised error). -/
def parse_document_chunk (c : Client) (t : Transport) (saved_filename : String)
    (bucket_name : Option String := some "aidoc")
    (options : Option Dict := none) : Except ParseError Value :=
  (run_parse_document_chunk c t saved_filename bucket_name options).2

/-- Embeds `XParserClient._safe_parse_document`, instrumented with its request
trace: calls `parse_document(saved_filename, None, options)` — note the
explicit `None` bucket — and converts any raised exception to `None`
(`except Exception` catches every failure `parse_document` can raise). -/
def run_safe_parse_document (c : Client) (t : Transport) (saved_filename : String)
    (options : Option Dict := none) : List HttpRequest × Option Value :=
  let r := run_parse_document c t saved_filename none options
  (r.1, match r.2 with
        | .ok v => some v
        | .error _ => none)

/-- Projects `XParserClient._safe_parse_document`'s return value. -/
def safe_parse_document (c : Client) (t : Transport) (saved_filename : String)
    (options : Option Dict := none) : Option Value :=
  (run_safe_parse_document c t saved_filename options).2

/-- Embeds `XParserClient.batch_parse_documents`, instrumented with the
concatenated request trace: one `_safe_parse_document` task per filename,
gathered with `return_exceptions=True`, then the cleanup loop replaces any
captured exception with `None` (`_safe_parse_document` itself never raises,
so each gathered slot is already a value). -/
def run_batch_parse_documents (c : Client) (t : Transport)
    (saved_filenames : List String) (options : Option Dict := none) :
    List HttpRequest × List (Option Value) :=
  let tasks := saved_filenames.map (fun f => run_safe_parse_document c t f options)
  let results : List (Except String (Option Value)) := tasks.map (fun r => .ok r.2)
  let processed_results := results.map (fun r =>
    match r with
    | .error _ => none
    | .ok v => v)
  ((tasks.map Prod.fst).flatten, processed_results)

/-- Projects `XParserClient.batch_parse_documents`'s return value. -/
def batch_parse_documents (c : Client) (t : Transport)
    (saved_filenames : List String) (options : Option Dict := none) :
    List (Option Value) :=
  (run_batch_parse_documents c t saved_filenames options).2

/-- Reads the `status` field of a JSON body the way
`health_data.get("status")` does: `none` when the body is not an object or
lacks the field (in Python a non-dict body makes `.get` raise, which the
surrounding `except` turns into the same `False` result). -/
def statusField : Option Value → Option Value
  | some (Value.vObj fields) => aLookup fields "status"
  | _ => none

/-- The GET request `check_health` and `get_server_info` issue to
`{base_url}/health` (no body). -/
def health_request (c : Client) : HttpRequest :=
  { method := "GET", url := c.base_url ++ "/health", body := Value.vNull }

/-- Embeds `XParserClient.check_health`: GET `{base_url}/health` with a 10s
timeout; `True` only when the status is 200 and the JSON body's `status`
field is `"healthy"`; every failure path returns `False`. -/
def check_health (c : Client) (t : Transport) : Bool :=
  match t (health_request c) with
  | .transportFailure _ => false
  | .success resp =>
      if resp.status = 200 then
        match statusField resp.jsonVal with
        | some (Value.vStr s) => s == "healthy"
        | _ => false
      else false

/-- Embeds `XParserClient.get_server_info`: GET `{base_url}/health`,
`raise_for_status`, return the JSON body; any raised exception (transport,
non-2xx, decode) is caught and turned into `None`. -/
def get_server_info (c : Client) (t : Transport) : Option Value :=
  match t (health_request c) with
  | .transportFailure _ => none
  | .success resp =>
      if is2xx resp.status then resp.jsonVal else none

/-! ## Semaphore model

`parse_document` and `parse_document_chunk` both wrap their entire HTTP
round trip in `async with self.semaphore` (an `asyncio.Semaphore`
initialised to `max_concurrent` in `__init__`).  The interleaved execution
of any number of such calls — including the tasks spawned by
`batch_parse_documents` — is modelled as a step relation on an explicit
state: each logical call is a task that first acquires the semaphore (only
possible while a unit is available), holds it for exactly the duration of
its HTTP request, and releases it when the `async with` block exits,
whether the body returned normally or raised. -/

/-- Phase of one logical `parse_document`/`parse_document_chunk` call with
respect to the shared semaphore. The HTTP request is in flight only in the
`holding` phase. -/
inductive TaskPhase where
  | start
  | holding
  | done
deriving DecidableEq

/-- Tests for the `holding` phase. -/
def isHolding : TaskPhase → Bool
  | .holding => true
  | _ => false

/-- Interleaving state of one client instance: the semaphore's available
units and the phase of every logical call issued against the instance. -/
structure SemaphoreState where
  avail : Nat
  tasks : List TaskPhase

/-- Number of HTTP requests currently in flight: tasks inside their
`async with self.semaphore` block. -/
def inFlight (s : SemaphoreState) : Nat := s.tasks.countP isHolding

/-- One scheduler step of the interleaved execution:
`acquire` is `async with self.semaphore` entering its body (it suspends —
no step exists — while no unit is available); `finishOk` and `finishRaise`
are the block exiting after a successful request or a raised exception —
the semaphore unit is released on both exit paths. -/
inductive SemStep : SemaphoreState → SemaphoreState → Prop where
  | acquire (s : SemaphoreState) (i : Nat) (hi : i < s.tasks.length)
      (hph : s.tasks.get ⟨i, hi⟩ = TaskPhase.start) (havail : 0 < s.avail) :
      SemStep s ⟨s.avail - 1, s.tasks.set i TaskPhase.holding⟩
  | finishOk (s : SemaphoreState) (i : Nat) (hi : i < s.tasks.length)
      (hph : s.tasks.get ⟨i, hi⟩ = TaskPhase.holding) :
      SemStep s ⟨s.avail + 1, s.tasks.set i TaskPhase.done⟩
  | finishRaise (s : SemaphoreState) (i : Nat) (hi : i < s.tasks.length)
      (hph : s.tasks.get ⟨i, hi⟩ = TaskPhase.holding) :
      SemStep s ⟨s.avail + 1, s.tasks.set i TaskPhase.done⟩

/-- The state right after `__init__`: `asyncio.Semaphore(max_concurrent)`
full, and `n` logical calls not yet started (`n` is arbitrary — e.g. the
length of a `batch_parse_documents` input larger than the capacity). -/
def initState (max_concurrent n : Nat) : SemaphoreState :=
  ⟨max_concurrent, List.replicate n TaskPhase.start⟩

/-- States the interleaved execution can reach from the initial state. -/
def ReachableState (max_concurrent n : Nat) (s : SemaphoreState) : Prop :=
  Relation.ReflTransGen SemStep (initState max_concurrent n) s

theorem countP_set (p : TaskPhase → Bool) (l : List TaskPhase) (i : Nat)
    (b : TaskPhase) (hi : i < l.length) :
    (l.set i b).countP p + (if p (l.get ⟨i, hi⟩) then 1 else 0) =
      l.countP p + (if p b then 1 else 0) := by
  induction l generalizing i with
  | nil => simp at hi
  | cons hd tl ih =>
      cases i with
      | zero =>
          rw [show (hd :: tl).get ⟨0, hi⟩ = hd from rfl,
            show (hd :: tl).set 0 b = b :: tl from rfl]
          simp only [List.countP_cons]
          omega
      | succ n =>
          have hn : n < tl.length := by simpa using hi
          have h2 := ih n hn
          rw [show (hd :: tl).get ⟨n + 1, hi⟩ = tl.get ⟨n, hn⟩ from rfl,
            show (hd :: tl).set (n + 1) b = hd :: tl.set n b from rfl]
          simp only [List.countP_cons]
          omega

/-- Each scheduler step preserves the semaphore invariant: held units plus
available units equal the capacity. -/
theorem sem_step_invariant (s s' : SemaphoreState) (k : Nat)
    (hstep : SemStep s s') (hinv : inFlight s + s.avail = k) :
    inFlight s' + s'.avail = k := by
  simp only [inFlight] at hinv
  cases hstep with
  | acquire i hi hph havail =>
      have hc := countP_set isHolding s.tasks i TaskPhase.holding hi
      rw [hph] at hc
      rw [show (if isHolding TaskPhase.start = true then 1 else 0) = 0 from rfl,
        show (if isHolding TaskPhase.holding = true then 1 else 0) = 1 from rfl] at hc
      show (s.tasks.set i TaskPhase.holding).countP isHolding + (s.avail - 1) = k
      omega
  | finishOk i hi hph =>
      have hc := countP_set isHolding s.tasks i TaskPhase.done hi
      rw [hph] at hc
      rw [show (if isHolding TaskPhase.holding = true then 1 else 0) = 1 from rfl,
        show (if isHolding TaskPhase.done = true then 1 else 0) = 0 from rfl] at hc
      show (s.tasks.set i TaskPhase.done).countP isHolding + (s.avail + 1) = k
      omega
  | finishRaise i hi hph =>
      have hc := countP_set isHolding s.tasks i TaskPhase.done hi
      rw [hph] at hc
      rw [show (if isHolding TaskPhase.holding = true then 1 else 0) = 1 from rfl,
        show (if isHolding TaskPhase.done = true then 1 else 0) = 0 from rfl] at hc
      show (s.tasks.set i TaskPhase.done).countP isHolding + (s.avail + 1) = k
      omega

/-- The semaphore invariant holds in every reachable state. -/
theorem sem_invariant (k n : Nat) (s : SemaphoreState)
    (h : ReachableState k n s) : inFlight s + s.avail = k := by
  induction h with
  | refl =>
      simp only [inFlight, initState]
      rw [List.countP_eq_zero.mpr]
      · simp
      · intro a ha
        rw [List.eq_of_mem_replicate ha]
        simp [isHolding]
  | tail hsteps hstep ih => exact sem_step_invariant _ _ k hstep ih

/-! ## Operation-sequence model (configuration immutability) -/

/-- One public method call on a client instance, with its arguments. -/
inductive ClientOp where
  | opParse (f : String) (b : Option String) (o : Option Dict)
  | opParseChunk (f : String) (b : Option String) (o : Option Dict)
  | opSafeParse (f : String) (o : Option Dict)
  | opBatchParse (fs : List String) (o : Option Dict)
  | opCheckHealth
  | opGetServerInfo

/-- Result of one method call (the per-method return types). -/
inductive OpResult where
  | rParse : Except ParseError Value → OpResult
  | rOption : Option Value → OpResult
  | rBatch : List (Option Value) → OpResult
  | rBool : Bool → OpResult

/-- Dispatch of one method call: the pair is the client object after the
call together with the call's result.  No method of the Python class
assigns any attribute of `self`, so the client comes back as it went in;
the only cross-call state, the semaphore, lives in `SemaphoreState`. -/
def run_op (c : Client) (t : Transport) : ClientOp → Client × OpResult
  | .opParse f b o => (c, .rParse (parse_document c t f b o))
  | .opParseChunk f b o => (c, .rParse (parse_document_chunk c t f b o))
  | .opSafeParse f o => (c, .rOption (safe_parse_document c t f o))
  | .opBatchParse fs o => (c, .rBatch (batch_parse_documents c t fs o))
  | .opCheckHealth => (c, .rBool (check_health c t))
  | .opGetServerInfo => (c, .rOption (get_server_info c t))

/-- The client object after an arbitrary sequence of method calls. -/
def run_ops (c : Client) (t : Transport) (ops : List ClientOp) : Client :=
  ops.foldl (fun acc op => (run_op acc t op).1) c

theorem run_op_fst (c : Client) (t : Transport) (op : ClientOp) :
    (run_op c t op).1 = c := by
  cases op <;> rfl

/-! ## Concrete instances used by counterexamples and witnesses -/

/-- A client at a fixed base URL with the constructor defaults. -/
def cEx : Client := { base_url := "http://xparser" }

/-- A transport whose every request yields HTTP 418 with body `teapot`. -/
def t418 : Transport := fun _ => HttpOutcome.success ⟨418, "teapot", none⟩

/-- A transport whose every request yields HTTP 404 with a distinctive
response body, to compare against the raised error's payload. -/
def t404body : Transport :=
  fun _ => HttpOutcome.success ⟨404, "the-original-body", none⟩

/-- Reads a named field of a request's JSON body (`none` when the body is
not an object or lacks the field). -/
def bodyField (r : HttpRequest) (k : String) : Option Value :=
  match r.body with
  | Value.vObj fields => aLookup fields k
  | _ => none

/-- A transport that parses `good` filenames and 404s on `bad.pdf`. -/
def tMixed : Transport := fun req =>
  match bodyField req "saved_filename" with
  | some (Value.vStr s) =>
      if s = "bad.pdf" then HttpOutcome.success ⟨404, "nf", none⟩
      else HttpOutcome.success ⟨200, "ok", some (Value.vStr "parsed")⟩
  | _ => HttpOutcome.transportFailure "no filename"

/-! ## Claim theorems -/

/-- Claim C1: with a client constructed with capacity `max_concurrent`, no
reachable interleaving of any number `n` of parse/parseChunk calls (e.g. a
batch over more than `max_concurrent` references) has more than
`max_concurrent` requests in flight; the step relation acquires one
semaphore unit before the request and releases it on both exit paths
(`finishOk`/`finishRaise`). -/
theorem C1_in_flight_bounded (max_concurrent n : Nat) (s : SemaphoreState)
    (h : ReachableState max_concurrent n s) : inFlight s ≤ max_concurrent :=
  Nat.le.intro (sem_invariant max_concurrent n s h)

/-- Witness for C1: with capacity 1 and two tasks, the state after task 0
acquires the semaphore is reachable, and its in-flight count is within the
bound. -/
theorem C1_in_flight_bounded_witness :
    inFlight ⟨0, [TaskPhase.holding, TaskPhase.start]⟩ ≤ 1 :=
  C1_in_flight_bounded 1 2 ⟨0, [TaskPhase.holding, TaskPhase.start]⟩
    (Relation.ReflTransGen.single
      (SemStep.acquire (initState 1 2) 0 (by decide) (by decide) (by decide)))

theorem classify_status (f : String) (resp : HttpResponse) :
    (resp.status = 400 →
      classify_outcome f (.success resp) = .error (.invalidRequest resp.text)) ∧
    (resp.status = 404 →
      classify_outcome f (.success resp) = .error (.notFound f)) ∧
    (resp.status = 500 →
      classify_outcome f (.success resp) = .error (.serverError resp.text)) ∧
    (is2xx resp.status = false → resp.status ≠ 400 → resp.status ≠ 404 →
      resp.status ≠ 500 →
      classify_outcome f (.success resp) =
        .error (.httpStatusError resp.status resp.text)) := by
  obtain ⟨st, txt, jv⟩ := resp
  refine ⟨?_, ?_, ?_, ?_⟩
  · intro h
    have h' : st = 400 := h
    subst h'
    rfl
  · intro h
    have h' : st = 404 := h
    subst h'
    rfl
  · intro h
    have h' : st = 500 := h
    subst h'
    rfl
  · intro h2 h400 h404 h500
    have h2' : is2xx st = false := h2
    have e400 : st ≠ 400 := h400
    have e404 : st ≠ 404 := h404
    have e500 : st ≠ 500 := h500
    simp only [classify_outcome, h2', e400, e404, e500, if_false,
      Bool.false_eq_true]

/-- Claim C2, counterexample to the 404 clause as stated: on a 404 response
whose body is `"the-original-body"`, `parse_document` raises `NotFound`
carrying the filename `"doc.pdf"` — the only payload of the raised
`FileNotFoundError` — which is not the response body text, so the original
body text is not preserved in the error. -/
theorem C2_counterexample :
    parse_document cEx t404body "doc.pdf" (some "aidoc") none =
      .error (.notFound "doc.pdf") ∧
    "doc.pdf" ≠ "the-original-body" :=
  ⟨rfl, by decide⟩

/-- Claim C2 (amended): for every non-2xx status observed by
`parse_document` or `parse_document_chunk`: 400 raises `InvalidRequest`
preserving the response body text, 404 raises `NotFound` preserving the
document reference (the filename, not the body), 500 raises `ServerError`
preserving the body, and any other non-2xx status re-raises the original
HTTP-status error with status and body preserved. -/
theorem C2_error_classification (c : Client) (t : Transport) (f : String)
    (b : Option String) (o : Option Dict) (resp : HttpResponse)
    (hp : t (parse_request c f b o) = HttpOutcome.success resp)
    (hcnk : t (chunk_request c f b o) = HttpOutcome.success resp) :
    (resp.status = 400 →
      parse_document c t f b o = .error (.invalidRequest resp.text) ∧
      parse_document_chunk c t f b o = .error (.invalidRequest resp.text)) ∧
    (resp.status = 404 →
      parse_document c t f b o = .error (.notFound f) ∧
      parse_document_chunk c t f b o = .error (.notFound f)) ∧
    (resp.status = 500 →
      parse_document c t f b o = .error (.serverError resp.text) ∧
      parse_document_chunk c t f b o = .error (.serverError resp.text)) ∧
    (is2xx resp.status = false → resp.status ≠ 400 → resp.status ≠ 404 →
      resp.status ≠ 500 →
      parse_document c t f b o = .error (.httpStatusError resp.status resp.text) ∧
      parse_document_chunk c t f b o =
        .error (.httpStatusError resp.status resp.text)) := by
  have hcl := classify_status f resp
  have hpe : parse_document c t f b o =
      classify_outcome f (t (parse_request c f b o)) := rfl
  have hce : parse_document_chunk c t f b o =
      classify_outcome f (t (chunk_request c f b o)) := rfl
  rw [hp] at hpe
  rw [hcnk] at hce
  exact ⟨fun h => ⟨hpe.trans (hcl.1 h), hce.trans (hcl.1 h)⟩,
    fun h => ⟨hpe.trans (hcl.2.1 h), hce.trans (hcl.2.1 h)⟩,
    fun h => ⟨hpe.trans (hcl.2.2.1 h), hce.trans (hcl.2.2.1 h)⟩,
    fun h2 h4 h44 h5 => ⟨hpe.trans (hcl.2.2.2 h2 h4 h44 h5),
      hce.trans (hcl.2.2.2 h2 h4 h44 h5)⟩⟩

/-- Witness for C2: against a transport answering 418 with body `teapot`,
`parse_document` raises the re-raised HTTP-status error carrying status 418
and the body. -/
theorem C2_error_classification_witness :
    parse_document cEx t418 "doc.pdf" (some "aidoc") none =
      .error (.httpStatusError 418 "teapot") :=
  ((C2_error_classification cEx t418 "doc.pdf" (some "aidoc") none
      ⟨418, "teapot", none⟩ rfl rfl).2.2.2
    rfl (by decide) (by decide) (by decide)).1

theorem batch_eq_map (c : Client) (t : Transport) (fs : List String)
    (o : Option Dict) :
    batch_parse_documents c t fs o =
      fs.map (fun f => safe_parse_document c t f o) := by
  unfold batch_parse_documents run_batch_parse_documents
  simp only [List.map_map]
  rfl

/-- Claim C3: `batch_parse_documents` returns one slot per input filename,
positionally aligned: slot `i` holds `_safe_parse_document` of input `i`,
and is `None` exactly when the underlying `parse_document` call failed.
(The model is deterministic in the transport, so completion order cannot
influence the result.) -/
theorem C3_batch_alignment (c : Client) (t : Transport) (fs : List String)
    (o : Option Dict) :
    (batch_parse_documents c t fs o).length = fs.length ∧
    ∀ i f', fs.get? i = some f' →
      ((batch_parse_documents c t fs o).get? i =
          some (safe_parse_document c t f' o) ∧
        ((batch_parse_documents c t fs o).get? i = some none ↔
          ∃ e, parse_document c t f' none o = Except.error e)) := by
  have hmap := batch_eq_map c t fs o
  constructor
  · rw [hmap, List.length_map]
  · intro i f' hf'
    have hget : (batch_parse_documents c t fs o).get? i =
        some (safe_parse_document c t f' o) := by
      rw [List.get?_eq_getElem?] at hf'
      rw [hmap, List.get?_eq_getElem?, List.getElem?_map, hf']
      rfl
    refine ⟨hget, ?_⟩
    rw [hget]
    have hsafe : safe_parse_document c t f' o =
        (match parse_document c t f' none o with
         | .ok v => some v
         | .error _ => none) := rfl
    rw [hsafe]
    cases hp : parse_document c t f' none o with
    | ok v => simp
    | error e => simp

/-- Witness for C3: a two-document batch in which the second document 404s
yields `[result, None]`, aligned with the input order. -/
theorem C3_batch_alignment_witness :
    (batch_parse_documents cEx tMixed ["good.pdf", "bad.pdf"] none).get? 0 =
      some (some (Value.vStr "parsed")) ∧
    (batch_parse_documents cEx tMixed ["good.pdf", "bad.pdf"] none).get? 1 =
      some none :=
  ⟨(((C3_batch_alignment cEx tMixed ["good.pdf", "bad.pdf"] none).2
      0 "good.pdf" rfl).1).trans rfl,
   ((C3_batch_alignment cEx tMixed ["good.pdf", "bad.pdf"] none).2
      1 "bad.pdf" rfl).2.mpr ⟨ParseError.notFound "bad.pdf", rfl⟩⟩

/-- Claim C4: the effective request options are the endpoint's defaults
overlaid with the supplied mapping at the top level: a supplied key's value
(object values included, unrecursed — the merge is shallow) wins, a default
key not supplied keeps its default, and supplying no options yields exactly
the default mapping. -/
theorem C4_options_shallow_merge (u : Dict) (hnd : (u.map Prod.fst).Nodup)
    (k : String) :
    (∀ v, aLookup u k = some v →
      aLookup (build_options (some u)) k = some v ∧
      aLookup (build_options_v2 (some u)) k = some v) ∧
    (aLookup u k = none →
      aLookup (build_options (some u)) k = aLookup default_options_v1 k ∧
      aLookup (build_options_v2 (some u)) k = aLookup default_options_v2 k) ∧
    build_options none = default_options_v1 ∧
    build_options_v2 none = default_options_v2 := by
  refine ⟨?_, ?_, rfl, rfl⟩
  · intro v hv
    cases u with
    | nil => simp [aLookup] at hv
    | cons p ps =>
        constructor
        · show aLookup (dictUpdate default_options_v1 (p :: ps)) k = some v
          exact aLookup_dictUpdate_of_some _ _ _ _ hnd hv
        · show aLookup (dictUpdate default_options_v2 (p :: ps)) k = some v
          exact aLookup_dictUpdate_of_some _ _ _ _ hnd hv
  · intro hnone
    cases u with
    | nil => exact ⟨rfl, rfl⟩
    | cons p ps =>
        constructor
        · show aLookup (dictUpdate default_options_v1 (p :: ps)) k =
            aLookup default_options_v1 k
          exact aLookup_dictUpdate_of_none _ _ _ hnone
        · show aLookup (dictUpdate default_options_v2 (p :: ps)) k =
            aLookup default_options_v2 k
          exact aLookup_dictUpdate_of_none _ _ _ hnone

/-- Supplied options with one overlapping key (`include_bbox`, overridden
to `false`) and one new key whose value is itself an object. -/
def options_example : Dict :=
  [("include_bbox", Value.vBool false),
   ("custom_flag", Value.vObj [("nested", Value.vNum 1)])]

/-- Witness for C4: on `options_example`, the overlapping key takes the
supplied value, the new key passes through with its object value intact
(shallow), and an unsupplied default keeps its default. -/
theorem C4_options_shallow_merge_witness :
    aLookup (build_options (some options_example)) "include_bbox" =
      some (Value.vBool false) ∧
    aLookup (build_options_v2 (some options_example)) "custom_flag" =
      some (Value.vObj [("nested", Value.vNum 1)]) ∧
    aLookup (build_options (some options_example)) "response_format" =
      aLookup default_options_v1 "response_format" :=
  ⟨((C4_options_shallow_merge options_example (by decide) "include_bbox").1
      (Value.vBool false) rfl).1,
   ((C4_options_shallow_merge options_example (by decide) "custom_flag").1
      (Value.vObj [("nested", Value.vNum 1)]) rfl).2,
   ((C4_options_shallow_merge options_example (by decide)
      "response_format").2.1 rfl).1⟩

/-- Claim C5, counterexample: the single POST issued by `parse_document`
goes to `{base_url}/api/v2/parse`, not to the claimed
`{base_url}/api/v1/parse`. -/
theorem C5_counterexample :
    (run_parse_document cEx t418 "f.pdf" (some "aidoc") none).1.map
        HttpRequest.url = ["http://xparser/api/v2/parse"] ∧
    ("http://xparser/api/v2/parse" : String) ≠ "http://xparser/api/v1/parse" :=
  ⟨rfl, by decide⟩

/-- Claim C5 (amended): every `parse_document` call issues exactly one HTTP
POST, to `{base_url}/api/v2/parse`, and every `parse_document_chunk` call
issues exactly one HTTP POST, to `{base_url}/api/v2/chunk`, each carrying
the JSON `request_data` body. -/
theorem C5_single_post (c : Client) (t : Transport) (f : String)
    (b : Option String) (o : Option Dict) :
    (run_parse_document c t f b o).1 = [parse_request c f b o] ∧
    (run_parse_document c t f b o).1.length = 1 ∧
    (parse_request c f b o).method = "POST" ∧
    (parse_request c f b o).url = c.base_url ++ "/api/v2/parse" ∧
    (parse_request c f b o).body = request_body f b (build_options o) ∧
    (run_parse_document_chunk c t f b o).1 = [chunk_request c f b o] ∧
    (run_parse_document_chunk c t f b o).1.length = 1 ∧
    (chunk_request c f b o).method = "POST" ∧
    (chunk_request c f b o).url = c.base_url ++ "/api/v2/chunk" ∧
    (chunk_request c f b o).body = request_body f b (build_options_v2 o) :=
  ⟨rfl, rfl, rfl, rfl, rfl, rfl, rfl, rfl, rfl, rfl⟩

/-- The spec's stated default option set for the parse endpoint, spelled
with its key names for comparison with the `_build_options` literal. -/
def spec_default_options_parse : Dict :=
  [("response_format", Value.vStr "layout_json"),
   ("include_bbox", Value.vBool true),
   ("id_marker", Value.vBool true),
   ("group_markers", Value.vBool true),
   ("use_description", Value.vBool true)]

/-- The spec's stated default option set for the chunk endpoint. -/
def spec_default_options_chunk : Dict :=
  [("use_description", Value.vBool true),
   ("table_format", Value.vStr "markdown")]

/-- Claim C6, counterexample: neither endpoint's default mapping contains
the claimed key `use_description` (the code's keys are
`use_xparser_description` for v1 and `use_ai_description` for v2), so
neither default mapping equals the claimed one. -/
theorem C6_counterexample :
    aLookup (build_options none) "use_description" = none ∧
    aLookup spec_default_options_parse "use_description" =
      some (Value.vBool true) ∧
    aLookup (build_options_v2 none) "use_description" = none ∧
    aLookup spec_default_options_chunk "use_description" =
      some (Value.vBool true) ∧
    ¬(∀ k, aLookup (build_options none) k =
        aLookup spec_default_options_parse k) ∧
    ¬(∀ k, aLookup (build_options_v2 none) k =
        aLookup spec_default_options_chunk k) := by
  refine ⟨rfl, rfl, rfl, rfl, fun h => ?_, fun h => ?_⟩
  · have h1 := h "use_description"
    rw [show aLookup (build_options none) "use_description" = none from rfl,
      show aLookup spec_default_options_parse "use_description" =
        some (Value.vBool true) from rfl] at h1
    exact Option.noConfusion h1
  · have h1 := h "use_description"
    rw [show aLookup (build_options_v2 none) "use_description" = none from rfl,
      show aLookup spec_default_options_chunk "use_description" =
        some (Value.vBool true) from rfl] at h1
    exact Option.noConfusion h1

/-- Claim C6 (amended): the parse default set is exactly the five-key
mapping with `use_xparser_description` (not `use_description`), the chunk
default set is exactly the two-key mapping with `use_ai_description`, and
the two default sets are distinct. -/
theorem C6_default_option_sets :
    build_options none = default_options_v1 ∧
    build_options_v2 none = default_options_v2 ∧
    default_options_v1 =
      [("response_format", Value.vStr "layout_json"),
       ("include_bbox", Value.vBool true),
       ("id_marker", Value.vBool true),
       ("group_markers", Value.vBool true),
       ("use_xparser_description", Value.vBool true)] ∧
    default_options_v2 =
      [("use_ai_description", Value.vBool true),
       ("table_format", Value.vStr "markdown")] ∧
    default_options_v1.length = 5 ∧
    default_options_v2.length = 2 ∧
    ¬(∀ k, aLookup default_options_v1 k = aLookup default_options_v2 k) := by
  refine ⟨rfl, rfl, rfl, rfl, rfl, rfl, fun h => ?_⟩
  have h1 := h "table_format"
  rw [show aLookup default_options_v1 "table_format" = none from rfl,
    show aLookup default_options_v2 "table_format" =
      some (Value.vStr "markdown") from rfl] at h1
  exact Option.noConfusion h1

/-- Claim C7: `check_health` (a total Boolean function — it never raises)
returns `true` exactly when the GET to `{base_url}/health` yields a
response with status 200 whose JSON body's `status` field is `"healthy"`;
every other case — transport failure, non-200 status, or a 200 body whose
`status` differs — yields `false`. -/
theorem C7_check_health_iff (c : Client) (t : Transport) :
    check_health c t = true ↔
      ∃ resp, t (health_request c) = HttpOutcome.success resp ∧
        resp.status = 200 ∧
        statusField resp.jsonVal = some (Value.vStr "healthy") := by
  unfold check_health
  cases ht : t (health_request c) with
  | transportFailure m => simp [ht]
  | success resp =>
      simp only [ht, HttpOutcome.success.injEq, exists_eq_left']
      by_cases h200 : resp.status = 200
      · simp only [h200, if_true]
        cases hs : statusField resp.jsonVal with
        | none => simp [hs]
        | some v =>
            cases v with
            | vStr s => simp [hs, beq_iff_eq]
            | vBool b => simp [hs]
            | vNum n => simp [hs]
            | vNull => simp [hs]
            | vObj l => simp [hs]
      · simp [h200]

/-- Claim C8: `_safe_parse_document` never raises: for every client,
transport, input and failure kind it resolves to a value — exactly the
wrapped `parse_document` result on success — or to `None` when the wrapped
call raised. -/
theorem C8_safe_parse_never_raises (c : Client) (t : Transport) (f : String)
    (o : Option Dict) :
    (∃ v, parse_document c t f none o = .ok v ∧
      safe_parse_document c t f o = some v) ∨
    ((∃ e, parse_document c t f none o = .error e) ∧
      safe_parse_document c t f o = none) := by
  have hsafe : safe_parse_document c t f o =
      (match parse_document c t f none o with
       | .ok v => some v
       | .error _ => none) := rfl
  cases hp : parse_document c t f none o with
  | ok v => exact Or.inl ⟨v, rfl, by rw [hsafe, hp]⟩
  | error e => exact Or.inr ⟨⟨e, rfl⟩, by rw [hsafe, hp]⟩

/-- Claim C9: the client's configuration is immutable: after any sequence
of method calls the client object still carries the constructed `base_url`,
`timeout` and `max_concurrent`, and the `Client` record holds nothing but
that configuration — the shared semaphore, modelled by `SemaphoreState`, is
the only cross-call state. -/
theorem C9_config_immutable (c : Client) (t : Transport) (ops : List ClientOp) :
    run_ops c t ops = c := by
  induction ops generalizing c with
  | nil => rfl
  | cons op ops ih =>
      show run_ops ((run_op c t op).1) t ops = c
      rw [run_op_fst]
      exact ih c

/-- Tests whether a request's JSON body carries `bucket_name = null`. -/
def bucket_is_null (r : HttpRequest) : Bool :=
  match bodyField r "bucket_name" with
  | some Value.vNull => true
  | _ => false

/-- Claim C10: `_safe_parse_document` invokes `parse_document` with
`bucket_name = None` — not the documented default `"aidoc"` — so its one
request, and hence every request issued by `batch_parse_documents`, carries
`bucket_name = null` in its JSON body. -/
theorem C10_bucket_name_null (c : Client) (t : Transport) (f : String)
    (o : Option Dict) (fs : List String) :
    (run_safe_parse_document c t f o).1 = [parse_request c f none o] ∧
    bodyField (parse_request c f none o) "bucket_name" = some Value.vNull ∧
    (run_batch_parse_documents c t fs o).1.all bucket_is_null = true := by
  refine ⟨rfl, rfl, ?_⟩
  induction fs with
  | nil => rfl
  | cons hd tl ih =>
      rw [show (run_batch_parse_documents c t (hd :: tl) o).1 =
        (run_safe_parse_document c t hd o).1 ++
          (run_batch_parse_documents c t tl o).1 from rfl]
      rw [List.all_append]
      rw [show (run_safe_parse_document c t hd o).1.all bucket_is_null =
        true from rfl]
      rw [ih]
      rfl

end XParserClient
